import Mathlib

/-!
# Verification of the azuracast-podcast-art-regenerator core

Shallow embedding of the resumable batch pipeline:
* `src/services/progress.js` — the `ProgressTracker` ledger (class field
  `this.progress` plus the on-disk JSON file, modelled as two `Option Progress`
  components of a `TrackerState`);
* `src/api/client.js` — the `withRetry` wrapper (modelled over an oracle giving
  each attempt's result); and
* `src/services/podcast.js` — `processEpisode`, `processBatch` and the
  `processAllEpisodes` pagination loop (remote calls and the operator-control
  callback are oracles; the unbounded `while (true)` loop is run on fuel).

Timestamps (`startedAt`, `lastProcessedAt`, `processedAt`, `completedAt`) come
from `Date` and play no role in any property verified here; they are omitted
from the embedded records.  Console/logger output is likewise omitted.
-/

namespace PodcastArt

/-- One entry of the ledger's `episodes` map
(`progress.js` `recordEpisode`, lines 169–174; `processedAt` timestamp omitted). -/
structure EpisodeRecord where
  mediaUniqueId : Option String
  status : String
  error : Option String
deriving Repr, DecidableEq

/-- The `metadata` record of the ledger (`progress.js` lines 54–67;
timestamps omitted). -/
structure Metadata where
  stationId : Nat
  podcastId : String
  batchSize : Nat
  totalEpisodes : Nat
  processedEpisodes : Nat
  successCount : Nat
  failureCount : Nat
  skippedCount : Nat
  currentPage : Nat
  isComplete : Bool
deriving Repr, DecidableEq

/-- The in-memory ledger document: `this.progress` when non-null
(`progress.js`).  The JS `episodes` object is modelled as an association
list keyed by episode id. -/
structure Progress where
  metadata : Metadata
  episodes : List (String × EpisodeRecord)
deriving Repr, DecidableEq

/-- JS object assignment `episodes[key] = value`: overwrite the existing
binding in place, or append a new one. -/
def upsert (key : String) (value : EpisodeRecord) :
    List (String × EpisodeRecord) → List (String × EpisodeRecord)
  | [] => [(key, value)]
  | (k, v) :: rest =>
      if k = key then (key, value) :: rest else (k, v) :: upsert key value rest

/-- `ProgressTracker.recordEpisode` (`progress.js` lines 164–190) acting on a
live (non-null) `this.progress`: store the record under `episodeId`, then
increment `processedEpisodes` and the counter matching `status` (the JS
`switch` increments nothing further on any other string). -/
def recordEpisode (p : Progress) (episodeId : String) (mediaUniqueId : Option String)
    (status : String) (err : Option String) : Progress :=
  { metadata :=
      { p.metadata with
        processedEpisodes := p.metadata.processedEpisodes + 1
        successCount :=
          if status = "success" then p.metadata.successCount + 1 else p.metadata.successCount
        failureCount :=
          if status = "failed" then p.metadata.failureCount + 1 else p.metadata.failureCount
        skippedCount :=
          if status = "skipped" then p.metadata.skippedCount + 1 else p.metadata.skippedCount }
    episodes := upsert episodeId ⟨mediaUniqueId, status, err⟩ p.episodes }

/-- The tracker's state: `progress` is the in-memory `this.progress`
(`none` = JS `null`), `disk` is the content of the progress file on durable
storage (`none` = no file). -/
structure TrackerState where
  progress : Option Progress
  disk : Option Progress
deriving Repr, DecidableEq

/-- `ProgressTracker.save` (`progress.js` lines 104–118): throws
`No progress data to save` when `this.progress` is null, otherwise writes the
full in-memory snapshot to the file. -/
def save (ts : TrackerState) : Except String TrackerState :=
  match ts.progress with
  | none => .error "No progress data to save"
  | some p => .ok { ts with disk := some p }

/-- `ProgressTracker.recordEpisode` at the tracker level (`progress.js` lines
164–190): throws `Progress not initialized` on a null `this.progress`;
otherwise mutates only the in-memory ledger (no file write here). -/
def recordEpisodeT (ts : TrackerState) (episodeId : String) (mediaUniqueId : Option String)
    (status : String) (err : Option String) : Except String TrackerState :=
  match ts.progress with
  | none => .error "Progress not initialized"
  | some p => .ok { ts with progress := some (recordEpisode p episodeId mediaUniqueId status err) }

/-- `ProgressTracker.isEpisodeProcessed` (`progress.js` lines 197–199). -/
def isEpisodeProcessed (ts : TrackerState) (episodeId : String) : Bool :=
  match ts.progress with
  | none => false
  | some p => (p.episodes.lookup episodeId).isSome

/-- `ProgressTracker.getEpisodeStatus` (`progress.js` lines 206–211). -/
def getEpisodeStatus (ts : TrackerState) (episodeId : String) : Option String :=
  match ts.progress with
  | none => none
  | some p =>
      match p.episodes.lookup episodeId with
      | none => none
      | some r => some r.status

/-- `ProgressTracker.updateTotal` (`progress.js` lines 141–145):
no-op on a null `this.progress`. -/
def updateTotalT (ts : TrackerState) (total : Nat) : TrackerState :=
  match ts.progress with
  | none => ts
  | some p => { ts with progress := some { p with metadata := { p.metadata with totalEpisodes := total } } }

/-- `ProgressTracker.updateCurrentPage` (`progress.js` lines 151–155). -/
def updateCurrentPageT (ts : TrackerState) (page : Nat) : TrackerState :=
  match ts.progress with
  | none => ts
  | some p => { ts with progress := some { p with metadata := { p.metadata with currentPage := page } } }

/-- The metadata change made by `ProgressTracker.markComplete`
(`progress.js` lines 216–221; `completedAt` timestamp omitted). -/
def markCompleteP (p : Progress) : Progress :=
  { p with metadata := { p.metadata with isComplete := true } }

/-- `ProgressTracker.markComplete` at the tracker level:
no-op on a null `this.progress`. -/
def markCompleteT (ts : TrackerState) : TrackerState :=
  match ts.progress with
  | none => ts
  | some p => { ts with progress := some (markCompleteP p) }

/-- The object returned by `ProgressTracker.getStats` (`progress.js` lines 227–247). -/
structure Stats where
  total : Nat
  processed : Nat
  success : Nat
  failed : Nat
  skipped : Nat
  currentPage : Nat
deriving Repr, DecidableEq

/-- `ProgressTracker.getStats` (`progress.js` lines 227–247). -/
def getStats (ts : TrackerState) : Stats :=
  match ts.progress with
  | none => ⟨0, 0, 0, 0, 0, 1⟩
  | some p =>
      ⟨p.metadata.totalEpisodes, p.metadata.processedEpisodes, p.metadata.successCount,
       p.metadata.failureCount, p.metadata.skippedCount, p.metadata.currentPage⟩

/-- The fresh-ledger branch of `ProgressTracker.initialize`
(`progress.js` lines 53–69): all counters zero, page 1, not complete. -/
def freshProgress (stationId : Nat) (podcastId : String) (batchSize : Nat) : Progress :=
  { metadata :=
      { stationId := stationId, podcastId := podcastId, batchSize := batchSize
        totalEpisodes := 0, processedEpisodes := 0, successCount := 0
        failureCount := 0, skippedCount := 0, currentPage := 1, isComplete := false }
    episodes := [] }

/-! ## The retry wrapper (`src/api/client.js`, `withRetry`, lines 55–75)

Each attempt's result is given by an oracle `apiCall : Nat → Except ε α`
(argument = 0-based attempt index).  The wrapper's observable behaviour is its
result, the number of invocations of the underlying call, and the list of
backoff delays awaited between attempts. -/

/-- What the JS promise returned by `withRetry` settles to: a value, a thrown
error, or `undefined` (the `for` loop body never ran). -/
inductive RetryResult (ε α : Type) where
  | ok (a : α)
  | err (e : ε)
  | undef
deriving Repr, DecidableEq

/-- Observable trace of one `withRetry` run: final result, number of times the
wrapped call was invoked, and the backoff delays (ms) slept between attempts. -/
structure RetryTrace (ε α : Type) where
  result : RetryResult ε α
  callCount : Nat
  delays : List Nat
deriving Repr, DecidableEq

/-- The loop of `withRetry` (`client.js` lines 56–74): `i` is the current
attempt index, the last argument the number of loop iterations remaining
(`attempts - i`).  On a caught error the last attempt rethrows it unchanged;
otherwise the loop sleeps `retryDelay * 2 ^ i` and retries. -/
def runRetry (apiCall : Nat → Except ε α) (retryDelay : Nat) (i : Nat) :
    Nat → RetryTrace ε α
  | 0 => ⟨.undef, 0, []⟩
  | Nat.succ n =>
      match apiCall i with
      | .ok a => ⟨.ok a, 1, []⟩
      | .error e =>
          if n = 0 then ⟨.err e, 1, []⟩
          else
            let t := runRetry apiCall retryDelay (i + 1) n
            ⟨t.result, t.callCount + 1, (retryDelay * 2 ^ i) :: t.delays⟩

/-- `ApiClient.withRetry` (`client.js` lines 55–75).  `attempts` is an `Int`
so that a non-positive configured budget is representable: the JS
`for (let i = 0; i < attempts; i++)` then runs zero iterations. -/
def withRetry (apiCall : Nat → Except ε α) (attempts : Int) (retryDelay : Nat) :
    RetryTrace ε α :=
  runRetry apiCall retryDelay 0 attempts.toNat

/-! ## The item processor (`src/services/podcast.js`, `processEpisode`, lines 23–83)

The remote client (`ApiClient.downloadMediaArtwork`, `uploadEpisodeArtwork`) is
modelled as an oracle giving each call's fully-retried outcome: an `Except`
whose `.error` is the error ultimately thrown by `withRetry` and whose `.ok`
is the resolved value.  The artwork buffer is a byte list; `none` stands for a
nullish JS value (guarded by `!artworkBuffer`). -/

/-- The fields of an episode row that `processEpisode` and `processBatch`
read (`podcast.js` lines 24–25, 104).  `playlist_media_id` is `none` for a
missing field; the JS falsy check also fires on the empty string. -/
structure Episode where
  id : String
  playlist_media_id : Option String
deriving Repr, DecidableEq

/-- JS truthiness test `!mediaUniqueId` (`podcast.js` line 29):
nullish or empty string. -/
def isFalsyMedia : Option String → Bool
  | none => true
  | some s => s = ""

/-- The JSON body of the upload response, as read by `podcast.js` line 63–64:
`{ success, message }`. -/
structure UploadResult where
  success : Bool
  message : Option String
deriving Repr, DecidableEq

/-- Oracle for the two remote calls a single `processEpisode` run can make.
`download` models `api.downloadMediaArtwork` (after its internal retries),
`upload` models `api.uploadEpisodeArtwork`. -/
structure ApiBehavior where
  download : Except String (Option (List Nat))
  upload : Except String UploadResult
deriving Repr

/-- Observable outcome of one `processEpisode` run: the returned status
string, the updated in-memory ledger, and how many download / upload client
calls were issued. -/
structure ProcessOutcome where
  status : String
  progress : Progress
  downloadCalls : Nat
  uploadCalls : Nat
deriving Repr, DecidableEq

/-- `PodcastService.processEpisode` (`podcast.js` lines 23–83) acting on a
live ledger `p`.  Thrown client errors land in the `catch` block (lines
77–82), which records `failed` with the error message; `message` of a
rejected upload falls back to `Upload failed` when falsy (line 64). -/
def processEpisode (api : ApiBehavior) (p : Progress) (ep : Episode) (dryRun : Bool) :
    ProcessOutcome :=
  let episodeId := ep.id
  let mediaUniqueId := ep.playlist_media_id
  if isFalsyMedia mediaUniqueId then
    ⟨"failed", recordEpisode p episodeId mediaUniqueId "failed"
        (some "No playlist_media_id found"), 0, 0⟩
  else
    match api.download with
    | .error e =>
        ⟨"failed", recordEpisode p episodeId mediaUniqueId "failed" (some e), 1, 0⟩
    | .ok none =>
        ⟨"failed", recordEpisode p episodeId mediaUniqueId "failed"
            (some "No artwork data received"), 1, 0⟩
    | .ok (some bytes) =>
        if bytes.length = 0 then
          ⟨"failed", recordEpisode p episodeId mediaUniqueId "failed"
              (some "No artwork data received"), 1, 0⟩
        else if dryRun then
          ⟨"success", recordEpisode p episodeId mediaUniqueId "success" none, 1, 0⟩
        else
          match api.upload with
          | .error e =>
              ⟨"failed", recordEpisode p episodeId mediaUniqueId "failed" (some e), 1, 1⟩
          | .ok r =>
              if r.success then
                ⟨"success", recordEpisode p episodeId mediaUniqueId "success" none, 1, 1⟩
              else
                let msg :=
                  match r.message with
                  | some m => if m = "" then "Upload failed" else m
                  | none => "Upload failed"
                ⟨"failed", recordEpisode p episodeId mediaUniqueId "failed" (some msg), 1, 1⟩

/-! ## The batch step (`src/services/podcast.js`, `processBatch`, lines 94–128) -/

/-- The `results` object built by `processBatch` (lines 95–101); `processed`
is the pushed list of `{ episode, status }` pairs. -/
structure BatchResults where
  total : Nat
  success : Nat
  failed : Nat
  skipped : Nat
  processed : List (String × String)
deriving Repr, DecidableEq

/-- The JS `results[status]++` (lines 114, 120).  Statuses reaching it are
`success` / `failed` / `skipped` (from `processEpisode` or the ledger); for
any other string the JS would create a detached NaN-valued key, which the
three tracked counters ignore. -/
def bumpResult (r : BatchResults) (status : String) : BatchResults :=
  if status = "success" then { r with success := r.success + 1 }
  else if status = "failed" then { r with failed := r.failed + 1 }
  else if status = "skipped" then { r with skipped := r.skipped + 1 }
  else r

/-- `results.processed.push({ episode: ..., status })` (lines 115, 121). -/
def pushResult (r : BatchResults) (episodeId status : String) : BatchResults :=
  { r with processed := r.processed ++ [(episodeId, status)] }

/-- State threaded through the `for` loop of `processBatch`: the tracker
(in-memory ledger plus disk file, since `save` runs after each processed
item) and the accumulated results and client-call counts. -/
structure BatchState where
  tracker : TrackerState
  results : BatchResults
  downloadCalls : Nat
  uploadCalls : Nat
deriving Repr, DecidableEq

/-- The `for (const episode of episodes)` loop of `processBatch` (lines
103–125).  An already-processed episode is tallied under its previously
recorded ledger status and skipped without any client call or save; otherwise
`processEpisode` runs and `save` persists the ledger.  A throw from
`recordEpisode` / `save` (only possible on a null `this.progress`, in which
case it happens before any ledger mutation) propagates as `.error`. -/
def processBatchGo (api : String → ApiBehavior) (dryRun : Bool) :
    BatchState → List Episode → Except String BatchState
  | st, [] => .ok st
  | st, ep :: rest =>
      if isEpisodeProcessed st.tracker ep.id then
        let status := (getEpisodeStatus st.tracker ep.id).getD ""
        processBatchGo api dryRun
          { st with results := pushResult (bumpResult st.results status) ep.id status } rest
      else
        match st.tracker.progress with
        | none => .error "Progress not initialized"
        | some p =>
            let out := processEpisode (api ep.id) p ep dryRun
            match save { st.tracker with progress := some out.progress } with
            | .error e => .error e
            | .ok tracker₂ =>
                processBatchGo api dryRun
                  { tracker := tracker₂
                    results := pushResult (bumpResult st.results out.status) ep.id out.status
                    downloadCalls := st.downloadCalls + out.downloadCalls
                    uploadCalls := st.uploadCalls + out.uploadCalls } rest

/-- The already-processed branch of the batch loop (`podcast.js` lines
111–117) as a state transformer: tally the episode under its previously
recorded ledger status; tracker and call counters are untouched. -/
def skipStep (st : BatchState) (ep : Episode) : BatchState :=
  let s := (getEpisodeStatus st.tracker ep.id).getD ""
  { st with results := pushResult (bumpResult st.results s) ep.id s }

/-- `PodcastService.processBatch` (lines 94–128): `results.total` is the page
length (line 96). -/
def processBatch (api : String → ApiBehavior) (ts : TrackerState) (episodes : List Episode)
    (dryRun : Bool) : Except String BatchState :=
  processBatchGo api dryRun ⟨ts, ⟨episodes.length, 0, 0, 0, []⟩, 0, 0⟩ episodes

/-! ## The pagination driver (`src/services/podcast.js`, `processAllEpisodes`,
lines 157–329)

The remote list call and the operator-control callback are oracles; the
`while (true)` loop is executed on fuel (`none` = fuel exhausted, which can
only happen on genuinely unbounded runs such as an ever-failing list call with
no control callback). -/

/-- The fields of the paginated episode-list response that the driver reads
(`podcast.js` lines 177, 184, 195, 231, 279). -/
structure PageResponse where
  rows : List Episode
  total : Nat
  total_pages : Nat
deriving Repr, DecidableEq

/-- What the `onBatchComplete` callback resolves to: the driver distinguishes
a boolean from an object `{ continue, newBatchSize }` (`podcast.js` lines
209–226, 260–275); `newBatchSize` is absent or a number (`0` is falsy). -/
inductive ControlResponse where
  | bool (b : Bool)
  | obj (cont : Bool) (newBatchSize : Option Nat)
deriving Repr, DecidableEq

/-- JS truthiness of a callback response, used by the error handler's
`if (!shouldContinue)` (`podcast.js` line 302): booleans coerce to
themselves, objects are truthy. -/
def truthy : ControlResponse → Bool
  | .bool b => b
  | .obj _ _ => true

/-- Environment of one driver run: the list call (by page number and row
count, after the client's internal retries), the per-episode behaviour of the
download/upload calls, and the optional operator-control callback, consumed
as a sequence indexed by how many times it has been awaited. -/
structure DriverEnv where
  fetch : Nat → Nat → Except String PageResponse
  api : String → ApiBehavior
  control : Option (Nat → ControlResponse)

/-- The driver's loop state: the mutable locals of `processAllEpisodes`
(`currentPage`, `batchSize`, the four running totals, `isFirstBatch`) plus
the tracker, the number of control-callback awaits so far, the log of list
fetches as `(page, rowCount)` pairs, and cumulative client-call counts. -/
structure DriverState where
  tracker : TrackerState
  currentPage : Nat
  batchSize : Nat
  totalProcessed : Nat
  totalSuccess : Nat
  totalFailed : Nat
  totalSkipped : Nat
  isFirstBatch : Bool
  ctrlCalls : Nat
  fetchLog : List (Nat × Nat)
  downloadCalls : Nat
  uploadCalls : Nat
deriving Repr, DecidableEq

/-- Result of one body of the `while (true)` loop: keep looping, or leave the
loop (`break` or the empty-page / last-page exits). -/
inductive IterResult where
  | loop (st : DriverState)
  | done (st : DriverState)
deriving Repr, DecidableEq

/-- The `catch` block of the loop (`podcast.js` lines 286–312): with a
control callback, break when its response is falsy, otherwise advance to the
next page; with no callback, always advance. -/
def catchBlock (env : DriverEnv) (st : DriverState) : IterResult :=
  match env.control with
  | some f =>
      let resp := f st.ctrlCalls
      let st₂ := { st with ctrlCalls := st.ctrlCalls + 1 }
      if truthy resp then .loop { st₂ with currentPage := st₂.currentPage + 1 }
      else .done st₂
  | none => .loop { st with currentPage := st.currentPage + 1 }

/-- Lines 229–284: run `processBatch` on the fetched rows, fold its results
into the running totals, consult the post-batch control gate (a new batch
size takes effect on the state only — the next fetch), then break if the
page number has reached `total_pages`, else advance the page. -/
def batchStep (env : DriverEnv) (dryRun : Bool) (st : DriverState) (resp : PageResponse) :
    IterResult :=
  match processBatch env.api st.tracker resp.rows dryRun with
  | .error _ => catchBlock env st
  | .ok bs =>
      let st₂ : DriverState :=
        { st with
          tracker := bs.tracker
          totalProcessed := st.totalProcessed + bs.results.total
          totalSuccess := st.totalSuccess + bs.results.success
          totalFailed := st.totalFailed + bs.results.failed
          totalSkipped := st.totalSkipped + bs.results.skipped
          downloadCalls := st.downloadCalls + bs.downloadCalls
          uploadCalls := st.uploadCalls + bs.uploadCalls }
      let afterControl : Bool × DriverState :=
        match env.control with
        | none => (true, st₂)
        | some f =>
            let r := f st₂.ctrlCalls
            let st₃ := { st₂ with ctrlCalls := st₂.ctrlCalls + 1 }
            match r with
            | .bool b => (b, st₃)
            | .obj cont nbs =>
                if cont then
                  match nbs with
                  | some n =>
                      if n ≠ 0 ∧ n ≠ st₃.batchSize then (true, { st₃ with batchSize := n })
                      else (true, st₃)
                  | none => (true, st₃)
                else (false, st₃)
      match afterControl with
      | (false, st₄) => .done st₄
      | (true, st₄) =>
          if resp.total_pages ≤ st₄.currentPage then .done st₄
          else .loop { st₄ with currentPage := st₄.currentPage + 1 }

/-- The pre-process control gate for the first batch (`podcast.js` lines
191–227): `isFirstBatch` is cleared before the response is examined; a
changed batch size triggers `continue`, i.e. a re-fetch of the same page with
the new size, skipping `processBatch` entirely for the stale rows. -/
def firstGate (env : DriverEnv) (dryRun : Bool) (st : DriverState) (resp : PageResponse) :
    IterResult :=
  match env.control with
  | some f =>
      if st.isFirstBatch then
        let r := f st.ctrlCalls
        let st₂ := { st with ctrlCalls := st.ctrlCalls + 1, isFirstBatch := false }
        match r with
        | .bool b => if b then batchStep env dryRun st₂ resp else .done st₂
        | .obj cont nbs =>
            if cont then
              match nbs with
              | some n =>
                  if n ≠ 0 ∧ n ≠ st₂.batchSize then .loop { st₂ with batchSize := n }
                  else batchStep env dryRun st₂ resp
              | none => batchStep env dryRun st₂ resp
            else .done st₂
      else batchStep env dryRun st resp
  | none => batchStep env dryRun st resp

/-- One iteration of the `while (true)` loop (`podcast.js` lines 172–313):
fetch the current page (logged as a `(page, rowCount)` pair), exit on an
empty page, report the total on the start page, record the current page,
then run the first-batch gate and the batch.  A fetch error goes to the
`catch` block. -/
def iterOnce (env : DriverEnv) (startPage : Nat) (dryRun : Bool) (st0 : DriverState) :
    IterResult :=
  let st := { st0 with fetchLog := st0.fetchLog ++ [(st0.currentPage, st0.batchSize)] }
  match env.fetch st0.currentPage st0.batchSize with
  | .error _ => catchBlock env st
  | .ok resp =>
      if resp.rows.length = 0 then .done st
      else
        let st₂ :=
          if st.currentPage = startPage then
            { st with tracker := updateTotalT st.tracker resp.total }
          else st
        let st₃ := { st₂ with tracker := updateCurrentPageT st₂.tracker st₂.currentPage }
        firstGate env dryRun st₃ resp

/-- Fuel-bounded execution of the loop; `none` when the fuel runs out before
the loop exits. -/
def runLoop (env : DriverEnv) (startPage : Nat) (dryRun : Bool) :
    Nat → DriverState → Option DriverState
  | 0, _ => none
  | Nat.succ fuel, st =>
      match iterOnce env startPage dryRun st with
      | .loop st₂ => runLoop env startPage dryRun fuel st₂
      | .done st₂ => some st₂

/-- The epilogue after the loop (`podcast.js` lines 315–320): if the ledger's
processed count has reached its recorded total, mark complete and save. -/
def finishRun (ts : TrackerState) : Except String TrackerState :=
  let stats := getStats ts
  if stats.total ≤ stats.processed then save (markCompleteT ts)
  else .ok ts

/-- The loop state at entry of `processAllEpisodes` (`podcast.js` lines
165–170). -/
def initialDriverState (ts : TrackerState) (batchSize startPage : Nat) : DriverState :=
  { tracker := ts, currentPage := startPage, batchSize := batchSize
    totalProcessed := 0, totalSuccess := 0, totalFailed := 0, totalSkipped := 0
    isFirstBatch := true, ctrlCalls := 0, fetchLog := [], downloadCalls := 0, uploadCalls := 0 }

/-- `PodcastService.processAllEpisodes` (`podcast.js` lines 157–329) on fuel:
run the loop, then the completion epilogue.  `.error` propagates a throw of
the final `save`. -/
def processAllEpisodes (env : DriverEnv) (ts : TrackerState) (batchSize startPage : Nat)
    (dryRun : Bool) (fuel : Nat) : Option (Except String DriverState) :=
  match runLoop env startPage dryRun fuel (initialDriverState ts batchSize startPage) with
  | none => none
  | some st =>
      match finishRun st.tracker with
      | .error e => some (.error e)
      | .ok ts₂ => some (.ok { st with tracker := ts₂ })

/-- Project the carried state out of an iteration result. -/
def iterState : IterResult → DriverState
  | .loop st => st
  | .done st => st

/-! ## Concrete fixtures used by counterexamples and witnesses -/

/-- A client behaviour where any remote call would throw: used to certify
that a code path issues no remote call at all. -/
def deadApi : String → ApiBehavior :=
  fun _ => ⟨.error "unreachable", .error "unreachable"⟩

/-- A ledger that has already recorded episode `e1` as a success. -/
def sampleLedger : Progress :=
  { metadata :=
      { stationId := 1, podcastId := "pod", batchSize := 50
        totalEpisodes := 5, processedEpisodes := 1, successCount := 1
        failureCount := 0, skippedCount := 0, currentPage := 1, isComplete := false }
    episodes := [("e1", ⟨some "m1", "success", none⟩)] }

/-- A tracker whose memory and disk both hold `sampleLedger`. -/
def sampleTracker : TrackerState := ⟨some sampleLedger, some sampleLedger⟩

/-- A tracker freshly initialised for collection `pod` (counters all zero),
memory and disk in sync. -/
def freshTracker : TrackerState :=
  ⟨some (freshProgress 1 "pod" 50), some (freshProgress 1 "pod" 50)⟩

/-- The fresh ledger after recording a failure for episode `e2`. -/
def recordedFresh : Progress :=
  recordEpisode (freshProgress 1 "pod" 50) "e2" (some "m2") "failed" (some "boom")

/-- An environment whose list call always fails and whose operator aborts on
the error report. -/
def failEnv : DriverEnv :=
  { fetch := fun _ _ => .error "connect ECONNREFUSED"
    api := deadApi
    control := some (fun _ => .bool false) }

/-- A three-page collection of one episode per page whose downloads and
uploads succeed; the operator requests batch size 10 at the first control
call and batch size 5 at every later one. -/
def resizeEnv : DriverEnv :=
  { fetch := fun page _ => .ok ⟨[⟨"e" ++ toString page, some "m"⟩], 3, 3⟩
    api := fun _ => ⟨.ok (some [1]), .ok ⟨true, none⟩⟩
    control := some (fun k => if k = 0 then .obj true (some 10) else .obj true (some 5)) }

/-! ## Helper lemmas -/

/-- Looking up the upserted key finds the new record. -/
theorem lookup_upsert (key : String) (v : EpisodeRecord)
    (l : List (String × EpisodeRecord)) : (upsert key v l).lookup key = some v := by
  induction l with
  | nil => simp [upsert, List.lookup]
  | cons hd tl ih =>
      obtain ⟨k, w⟩ := hd
      by_cases h : k = key
      · simp [upsert, h, List.lookup]
      · have h₂ : (key == k) = false := by
          simp only [beq_eq_false_iff_ne]
          exact fun hk => h hk.symm
        simp [upsert, h, List.lookup, h₂, ih]

/-- `updateTotalT` touches only in-memory metadata: the disk copy is unchanged. -/
theorem updateTotalT_disk (ts : TrackerState) (n : Nat) :
    (updateTotalT ts n).disk = ts.disk := by
  obtain ⟨prog, disk⟩ := ts
  cases prog <;> rfl

/-- `updateTotalT` leaves the outcome map unchanged. -/
theorem updateTotalT_episodes (ts : TrackerState) (n : Nat) :
    ((updateTotalT ts n).progress.map Progress.episodes) = ts.progress.map Progress.episodes := by
  obtain ⟨prog, disk⟩ := ts
  cases prog <;> rfl

/-- `updateCurrentPageT` touches only in-memory metadata: the disk copy is unchanged. -/
theorem updateCurrentPageT_disk (ts : TrackerState) (n : Nat) :
    (updateCurrentPageT ts n).disk = ts.disk := by
  obtain ⟨prog, disk⟩ := ts
  cases prog <;> rfl

/-- `updateCurrentPageT` leaves the outcome map unchanged. -/
theorem updateCurrentPageT_episodes (ts : TrackerState) (n : Nat) :
    ((updateCurrentPageT ts n).progress.map Progress.episodes) = ts.progress.map Progress.episodes := by
  obtain ⟨prog, disk⟩ := ts
  cases prog <;> rfl

/-! ## C1 — `recordEpisode` on an already-recorded identifier -/

/--
C1 counterexample.  The claim states that when the ledger already contains an
entry for the identifier, `recordEpisode` leaves the `processed` (and the
per-status) counters unchanged.  On `sampleLedger`, which already records
`e1` (with `processedEpisodes = 1`), recording `e1` again bumps
`processedEpisodes` to `2` and `failureCount` to `1`: the counters increment
on every call, entry or no entry.
-/
theorem c1_counterexample :
    (sampleLedger.episodes.lookup "e1").isSome = true ∧
    sampleLedger.metadata.processedEpisodes = 1 ∧
    (recordEpisode sampleLedger "e1" (some "m1") "failed" (some "boom")).metadata.processedEpisodes = 2 ∧
    (recordEpisode sampleLedger "e1" (some "m1") "failed" (some "boom")).metadata.failureCount = 1 :=
  ⟨rfl, rfl, rfl, rfl⟩

/--
C1 (amended): `recordEpisode` upserts into the outcome map — an existing
entry for the identifier is overwritten — but increments `processedEpisodes`
and the counter matching the status unconditionally, whether or not an entry
for that identifier already existed.
-/
theorem c1_record_always_increments (p : Progress) (id : String) (mid : Option String)
    (status : String) (err : Option String) :
    (recordEpisode p id mid status err).episodes.lookup id = some ⟨mid, status, err⟩ ∧
    (recordEpisode p id mid status err).metadata.processedEpisodes =
      p.metadata.processedEpisodes + 1 ∧
    (recordEpisode p id mid status err).metadata.successCount =
      (if status = "success" then p.metadata.successCount + 1 else p.metadata.successCount) ∧
    (recordEpisode p id mid status err).metadata.failureCount =
      (if status = "failed" then p.metadata.failureCount + 1 else p.metadata.failureCount) ∧
    (recordEpisode p id mid status err).metadata.skippedCount =
      (if status = "skipped" then p.metadata.skippedCount + 1 else p.metadata.skippedCount) :=
  ⟨lookup_upsert id ⟨mid, status, err⟩ p.episodes, rfl, rfl, rfl, rfl⟩

/-! ## C2 — counter consistency -/

/--
C2: if `processed == success + failed + skipped` holds before a
`recordEpisode` call whose status is one of `success`, `failed`, `skipped`,
it holds again immediately after the call; `save` never changes the
in-memory counters, so the equation also holds after every subsequent save.
-/
theorem c2_counter_consistency (p : Progress) (id : String) (mid : Option String)
    (status : String) (err : Option String)
    (hinv : p.metadata.processedEpisodes =
      p.metadata.successCount + p.metadata.failureCount + p.metadata.skippedCount)
    (hstatus : status = "success" ∨ status = "failed" ∨ status = "skipped") :
    (recordEpisode p id mid status err).metadata.processedEpisodes =
      (recordEpisode p id mid status err).metadata.successCount +
      (recordEpisode p id mid status err).metadata.failureCount +
      (recordEpisode p id mid status err).metadata.skippedCount ∧
    (∀ ts ts₂ : TrackerState, save ts = .ok ts₂ → ts₂.progress = ts.progress) := by
  constructor
  · rcases hstatus with h | h | h <;> subst h <;> simp [recordEpisode] <;> omega
  · intro ts ts₂ h
    obtain ⟨prog, disk⟩ := ts
    cases prog with
    | none => simp [save] at h
    | some q =>
        unfold save at h
        injection h with h₂
        rw [← h₂]

/-- Witness for C2 at a concrete input. -/
theorem c2_witness :
    (recordEpisode (freshProgress 1 "pod" 50) "e1" (some "m1") "success" none).metadata.processedEpisodes =
      (recordEpisode (freshProgress 1 "pod" 50) "e1" (some "m1") "success" none).metadata.successCount +
      (recordEpisode (freshProgress 1 "pod" 50) "e1" (some "m1") "success" none).metadata.failureCount +
      (recordEpisode (freshProgress 1 "pod" 50) "e1" (some "m1") "success" none).metadata.skippedCount ∧
    (∀ ts ts₂ : TrackerState, save ts = .ok ts₂ → ts₂.progress = ts.progress) :=
  c2_counter_consistency (freshProgress 1 "pod" 50) "e1" (some "m1") "success" none rfl (Or.inl rfl)

/-! ## C3 — already-processed items in `processBatch` -/

/--
C3 counterexample.  The claim states that an item whose identifier is already
in the ledger is classified and reported as `skipped`.  With `sampleTracker`
(episode `e1` recorded as `success`), `processBatch` over the single-item
page `[e1]` makes no client call and does not re-process — but it tallies the
item under its previously recorded status: the returned results have
`success = 1` and `skipped = 0`, and the per-item report lists
`("e1", "success")`, not `skipped`.
-/
theorem c3_counterexample :
    processBatch deadApi sampleTracker [⟨"e1", some "m1"⟩] false =
      .ok ⟨sampleTracker, ⟨1, 1, 0, 0, [("e1", "success")]⟩, 0, 0⟩ ∧
    getEpisodeStatus sampleTracker "e1" = some "success" :=
  ⟨rfl, rfl⟩

/--
C3 (amended): for every item on a page whose identifier already has a ledger
entry, the batch loop neither invokes the Item Processor nor issues any
remote download or upload call, and it classifies and reports the item under
its previously recorded ledger status (printing a skip message): the step
rewrites to the rest of the batch with only the results tallied, leaving the
tracker (memory and disk) and both client-call counters untouched.
-/
theorem c3_skip_without_reprocessing (api : String → ApiBehavior) (dryRun : Bool)
    (st : BatchState) (ep : Episode) (rest : List Episode)
    (h : isEpisodeProcessed st.tracker ep.id = true) :
    processBatchGo api dryRun st (ep :: rest) = processBatchGo api dryRun (skipStep st ep) rest ∧
    (skipStep st ep).tracker = st.tracker ∧
    (skipStep st ep).downloadCalls = st.downloadCalls ∧
    (skipStep st ep).uploadCalls = st.uploadCalls := by
  refine ⟨?_, rfl, rfl, rfl⟩
  conv_lhs => rw [processBatchGo.eq_def]
  simp [h, skipStep]

/-- Witness for C3's amended theorem at a concrete input. -/
theorem c3_witness :
    (processBatchGo deadApi false ⟨sampleTracker, ⟨1, 0, 0, 0, []⟩, 0, 0⟩ [⟨"e1", some "m1"⟩] =
      processBatchGo deadApi false
        (skipStep ⟨sampleTracker, ⟨1, 0, 0, 0, []⟩, 0, 0⟩ ⟨"e1", some "m1"⟩) []) ∧
    (skipStep ⟨sampleTracker, ⟨1, 0, 0, 0, []⟩, 0, 0⟩ ⟨"e1", some "m1"⟩).tracker = sampleTracker ∧
    (skipStep ⟨sampleTracker, ⟨1, 0, 0, 0, []⟩, 0, 0⟩ ⟨"e1", some "m1"⟩).downloadCalls = 0 ∧
    (skipStep ⟨sampleTracker, ⟨1, 0, 0, 0, []⟩, 0, 0⟩ ⟨"e1", some "m1"⟩).uploadCalls = 0 :=
  c3_skip_without_reprocessing deadApi false ⟨sampleTracker, ⟨1, 0, 0, 0, []⟩, 0, 0⟩
    ⟨"e1", some "m1"⟩ [] rfl

/-! ## C4 — persistence on `recordEpisode` -/

/--
C4 counterexample.  The claim states that every `recordEpisode` call persists
the full ledger to durable storage before returning, so that afterwards the
on-disk ledger equals the in-memory one including the just-recorded outcome.
On `freshTracker` (memory and disk in sync), recording `e1` returns a state
whose disk copy is still the fresh ledger: it has no entry for `e1` and
differs from the in-memory ledger — `recordEpisode` wrote nothing to disk.
-/
theorem c4_counterexample :
    recordEpisodeT freshTracker "e1" (some "m1") "success" none =
      .ok ⟨some (recordEpisode (freshProgress 1 "pod" 50) "e1" (some "m1") "success" none),
           some (freshProgress 1 "pod" 50)⟩ ∧
    (freshProgress 1 "pod" 50).episodes.lookup "e1" = none ∧
    (recordEpisode (freshProgress 1 "pod" 50) "e1" (some "m1") "success" none).episodes.lookup "e1" =
      some ⟨some "m1", "success", none⟩ ∧
    some (recordEpisode (freshProgress 1 "pod" 50) "e1" (some "m1") "success" none) ≠
      some (freshProgress 1 "pod" 50) := by
  refine ⟨rfl, rfl, rfl, ?_⟩
  decide

/--
C4 (amended): `recordEpisode` mutates only the in-memory ledger — the disk
copy is unchanged by the call; the full snapshot reaches durable storage at
the Batch Driver's `save` immediately after each processed item
(`podcast.js` line 124), and only after that save do disk and memory agree.
-/
theorem c4_record_does_not_persist (ts : TrackerState) (p : Progress) (id : String)
    (mid : Option String) (status : String) (err : Option String)
    (h : ts.progress = some p) :
    recordEpisodeT ts id mid status err =
      .ok { ts with progress := some (recordEpisode p id mid status err) } ∧
    ({ ts with progress := some (recordEpisode p id mid status err) } : TrackerState).disk = ts.disk ∧
    save { ts with progress := some (recordEpisode p id mid status err) } =
      .ok ⟨some (recordEpisode p id mid status err), some (recordEpisode p id mid status err)⟩ := by
  refine ⟨?_, rfl, rfl⟩
  unfold recordEpisodeT
  rw [h]

/-- Witness for C4's amended theorem at a concrete input. -/
theorem c4_witness :
    recordEpisodeT freshTracker "e2" (some "m2") "failed" (some "boom") =
      .ok ⟨some recordedFresh, some (freshProgress 1 "pod" 50)⟩ ∧
    (⟨some recordedFresh, some (freshProgress 1 "pod" 50)⟩ : TrackerState).disk =
      freshTracker.disk ∧
    save ⟨some recordedFresh, some (freshProgress 1 "pod" 50)⟩ =
      .ok ⟨some recordedFresh, some recordedFresh⟩ :=
  c4_record_does_not_persist freshTracker (freshProgress 1 "pod" 50) "e2" (some "m2") "failed"
    (some "boom") rfl

/-! ## C5 — retry exhaustion -/

/--
C5: with an attempt budget of 3 and a call that fails on every attempt,
`withRetry` invokes the call exactly 3 times, sleeps `base * 2 ^ i` after
failed attempt `i` (i.e. between consecutive attempts), and rethrows the
final attempt's error unchanged; `processEpisode`, whose download receives
that final error, converts it into exactly one `failed` outcome (one new
ledger entry carrying the error, `processed` and `failed` each up by one)
instead of an uncaught crash.
-/
theorem c5_retry_exhaustion (e : Nat → String) (base : Nat) (api : ApiBehavior)
    (p : Progress) (ep : Episode)
    (hm : isFalsyMedia ep.playlist_media_id = false)
    (hd : api.download = .error (e 2)) :
    withRetry (fun i => (Except.error (e i) : Except String (Option (List Nat)))) 3 base =
      ⟨.err (e 2), 3, [base * 2 ^ 0, base * 2 ^ 1]⟩ ∧
    processEpisode api p ep false =
      ⟨"failed", recordEpisode p ep.id ep.playlist_media_id "failed" (some (e 2)), 1, 0⟩ ∧
    (recordEpisode p ep.id ep.playlist_media_id "failed" (some (e 2))).metadata.processedEpisodes =
      p.metadata.processedEpisodes + 1 ∧
    (recordEpisode p ep.id ep.playlist_media_id "failed" (some (e 2))).metadata.failureCount =
      p.metadata.failureCount + 1 ∧
    (recordEpisode p ep.id ep.playlist_media_id "failed" (some (e 2))).episodes.lookup ep.id =
      some ⟨ep.playlist_media_id, "failed", some (e 2)⟩ := by
  refine ⟨rfl, ?_, rfl, rfl, lookup_upsert _ _ _⟩
  simp [processEpisode, hm, hd]

/-- Witness for C5 at a concrete input. -/
theorem c5_witness :
    withRetry (fun i => (Except.error ((fun _ => "timeout") i) : Except String (Option (List Nat)))) 3 100 =
      ⟨.err "timeout", 3, [100 * 2 ^ 0, 100 * 2 ^ 1]⟩ ∧
    processEpisode ⟨.error "timeout", .error "x"⟩ (freshProgress 1 "pod" 50) ⟨"e1", some "m1"⟩ false =
      ⟨"failed", recordEpisode (freshProgress 1 "pod" 50) "e1" (some "m1") "failed" (some "timeout"),
       1, 0⟩ ∧
    (recordEpisode (freshProgress 1 "pod" 50) "e1" (some "m1") "failed"
        (some "timeout")).metadata.processedEpisodes = 0 + 1 ∧
    (recordEpisode (freshProgress 1 "pod" 50) "e1" (some "m1") "failed"
        (some "timeout")).metadata.failureCount = 0 + 1 ∧
    (recordEpisode (freshProgress 1 "pod" 50) "e1" (some "m1") "failed"
        (some "timeout")).episodes.lookup "e1" = some ⟨some "m1", "failed", some "timeout"⟩ :=
  c5_retry_exhaustion (fun _ => "timeout") 100 ⟨.error "timeout", .error "x"⟩
    (freshProgress 1 "pod" 50) ⟨"e1", some "m1"⟩ rfl rfl

/-! ## C6 — empty artwork body -/

/--
C6: a zero-length artwork body is not a retry trigger — `withRetry` returns a
successfully resolved value after exactly one invocation with no backoff
sleeps (retries fire only on thrown errors) — and `processEpisode` records a
`failed` outcome with reason `No artwork data received` for the item, issuing
no upload call.
-/
theorem c6_empty_artwork (attempts : Int) (h1 : 1 ≤ attempts) (v : Option (List Nat))
    (base : Nat) (api : ApiBehavior) (p : Progress) (ep : Episode) (dryRun : Bool)
    (hm : isFalsyMedia ep.playlist_media_id = false)
    (hd : api.download = .ok (some [])) :
    withRetry (fun _ => (Except.ok v : Except String (Option (List Nat)))) attempts base =
      ⟨.ok v, 1, []⟩ ∧
    processEpisode api p ep dryRun =
      ⟨"failed",
       recordEpisode p ep.id ep.playlist_media_id "failed" (some "No artwork data received"),
       1, 0⟩ := by
  constructor
  · obtain ⟨n, hn⟩ : ∃ n, attempts.toNat = n + 1 := ⟨attempts.toNat - 1, by omega⟩
    unfold withRetry
    rw [hn]
    rfl
  · simp [processEpisode, hm, hd]

/-- Witness for C6 at a concrete input. -/
theorem c6_witness :
    withRetry (fun _ => (Except.ok (some []) : Except String (Option (List Nat)))) 3 100 =
      ⟨.ok (some []), 1, []⟩ ∧
    processEpisode ⟨.ok (some []), .error "x"⟩ (freshProgress 1 "pod" 50) ⟨"e1", some "m1"⟩ false =
      ⟨"failed",
       recordEpisode (freshProgress 1 "pod" 50) "e1" (some "m1") "failed"
         (some "No artwork data received"),
       1, 0⟩ :=
  c6_empty_artwork 3 (by decide) (some []) 100 ⟨.ok (some []), .error "x"⟩
    (freshProgress 1 "pod" 50) ⟨"e1", some "m1"⟩ false rfl rfl

/-! ## C9 — simulate mode issues no upload -/

/--
C9: in simulate mode (`dryRun = true`), an item with a valid media reference
whose artwork download returns a non-empty body is recorded as `success` and
the upload client call is never issued (`uploadCalls = 0`).
-/
theorem c9_dry_run_no_upload (api : ApiBehavior) (p : Progress) (ep : Episode)
    (bytes : List Nat)
    (hm : isFalsyMedia ep.playlist_media_id = false)
    (hd : api.download = .ok (some bytes))
    (hb : bytes.length ≠ 0) :
    processEpisode api p ep true =
      ⟨"success", recordEpisode p ep.id ep.playlist_media_id "success" none, 1, 0⟩ := by
  simp [processEpisode, hm, hd, hb]

/-- Witness for C9 at a concrete input. -/
theorem c9_witness :
    processEpisode ⟨.ok (some [7, 7]), .error "x"⟩ (freshProgress 1 "pod" 50)
      ⟨"e1", some "m1"⟩ true =
      ⟨"success", recordEpisode (freshProgress 1 "pod" 50) "e1" (some "m1") "success" none, 1, 0⟩ :=
  c9_dry_run_no_upload ⟨.ok (some [7, 7]), .error "x"⟩ (freshProgress 1 "pod" 50)
    ⟨"e1", some "m1"⟩ [7, 7] rfl rfl (by decide)

/-! ## C10 — non-positive retry budget -/

/--
C10: with a non-positive attempt budget the `for` loop of `withRetry` runs
zero iterations: the wrapped call is never invoked, no delay is slept, and
the promise resolves to `undefined` rather than rejecting.
-/
theorem c10_nonpositive_budget {ε α : Type} (apiCall : Nat → Except ε α)
    (attempts : Int) (h : attempts ≤ 0) (base : Nat) :
    withRetry apiCall attempts base = ⟨.undef, 0, []⟩ := by
  have h₂ : attempts.toNat = 0 := by omega
  unfold withRetry
  rw [h₂]
  rfl

/-- Witness for C10 at a concrete input. -/
theorem c10_witness :
    withRetry (fun _ => Except.error "always fails") (-2) 100 =
      (⟨.undef, 0, []⟩ : RetryTrace String (Option (List Nat))) :=
  c10_nonpositive_budget (fun _ => Except.error "always fails") (-2) (by decide) 100

/-! ## C7 — when the completion flag is set -/

/--
C7 counterexample.  The claim states the completion flag is set only when the
run has reached `Done` with every item's outcome recorded, and never on a run
that stopped early or whose total was never reported.  In `failEnv` the list
call fails on every attempt, the operator aborts at the error report, and not
a single item or total-count is ever seen; yet on exit the driver compares
`processed (0) >= total (0)` on the fresh ledger and marks the run complete.
-/
theorem c7_counterexample :
    processAllEpisodes failEnv freshTracker 50 1 false 3 =
      some (.ok ⟨⟨some (markCompleteP (freshProgress 1 "pod" 50)),
                  some (markCompleteP (freshProgress 1 "pod" 50))⟩,
                 1, 50, 0, 0, 0, 0, true, 1, [(1, 50)], 0, 0⟩) ∧
    (markCompleteP (freshProgress 1 "pod" 50)).metadata.isComplete = true ∧
    (markCompleteP (freshProgress 1 "pod" 50)).metadata.totalEpisodes = 0 ∧
    (markCompleteP (freshProgress 1 "pod" 50)).metadata.processedEpisodes = 0 ∧
    (markCompleteP (freshProgress 1 "pod" 50)).episodes = [] := by
  refine ⟨?_, rfl, rfl, rfl, rfl⟩
  rfl

/--
C7 (amended): at loop exit the driver calls `markComplete` (and saves) exactly
when the ledger's processed count has reached its recorded total, regardless
of how the loop exited; in particular a run that stopped early before any
total was reported (fresh ledger: total 0, processed 0) is marked complete.
-/
theorem c7_complete_iff_counts (ts : TrackerState) (p : Progress)
    (h : ts.progress = some p) :
    finishRun ts =
      if p.metadata.totalEpisodes ≤ p.metadata.processedEpisodes then
        .ok ⟨some (markCompleteP p), some (markCompleteP p)⟩
      else .ok ts := by
  obtain ⟨prog, disk⟩ := ts
  simp only [TrackerState.mk.injEq] at h
  subst h
  rfl

/-- Witness for C7's amended theorem at a concrete input. -/
theorem c7_witness :
    finishRun freshTracker =
      if (freshProgress 1 "pod" 50).metadata.totalEpisodes ≤
          (freshProgress 1 "pod" 50).metadata.processedEpisodes then
        .ok ⟨some (markCompleteP (freshProgress 1 "pod" 50)),
             some (markCompleteP (freshProgress 1 "pod" 50))⟩
      else .ok freshTracker :=
  c7_complete_iff_counts freshTracker (freshProgress 1 "pod" 50) rfl

/-! ## Fetch-log lemmas: only the fetch at the top of an iteration logs -/

/-- The error handler issues no fetch. -/
theorem catchBlock_fetchLog (env : DriverEnv) (st : DriverState) :
    (iterState (catchBlock env st)).fetchLog = st.fetchLog := by
  unfold catchBlock
  cases hc : env.control with
  | none => rfl
  | some f =>
      dsimp only
      by_cases ht : truthy (f st.ctrlCalls) = true
      · rw [if_pos ht]; rfl
      · rw [if_neg ht]; rfl

/-- The post-fetch batch segment issues no fetch. -/
theorem batchStep_fetchLog (env : DriverEnv) (dryRun : Bool) (st : DriverState)
    (resp : PageResponse) :
    (iterState (batchStep env dryRun st resp)).fetchLog = st.fetchLog := by
  unfold batchStep
  cases hpb : processBatch env.api st.tracker resp.rows dryRun with
  | error e => exact catchBlock_fetchLog env st
  | ok bs =>
      cases hc : env.control with
      | none =>
          dsimp only
          by_cases hp : resp.total_pages ≤ st.currentPage <;> simp [hp, iterState]
      | some f =>
          dsimp only
          cases hr : f st.ctrlCalls with
          | bool b =>
              cases b
              · rfl
              · by_cases hp : resp.total_pages ≤ st.currentPage <;> simp [hp, iterState]
          | obj cont nbs =>
              cases cont
              · rfl
              · cases nbs with
                | none =>
                    by_cases hp : resp.total_pages ≤ st.currentPage <;> simp [hp, iterState]
                | some n =>
                    by_cases hn : n ≠ 0 ∧ n ≠ st.batchSize <;>
                      by_cases hp : resp.total_pages ≤ st.currentPage <;>
                        simp [hn, hp, iterState]

/-- The first-batch control gate issues no fetch. -/
theorem firstGate_fetchLog (env : DriverEnv) (dryRun : Bool) (st : DriverState)
    (resp : PageResponse) :
    (iterState (firstGate env dryRun st resp)).fetchLog = st.fetchLog := by
  unfold firstGate
  cases hc : env.control with
  | none => exact batchStep_fetchLog env dryRun st resp
  | some f =>
      dsimp only
      cases hb : st.isFirstBatch with
      | false =>
          rw [if_neg (by simp)]
          exact batchStep_fetchLog env dryRun st resp
      | true =>
          rw [if_pos rfl]
          cases hr : f st.ctrlCalls with
          | bool b =>
              cases b
              · rfl
              · exact batchStep_fetchLog env dryRun _ resp
          | obj cont nbs =>
              cases cont
              · rfl
              · dsimp only
                rw [if_pos rfl]
                cases nbs with
                | none => exact batchStep_fetchLog env dryRun _ resp
                | some n =>
                    by_cases hn : n ≠ 0 ∧ n ≠ st.batchSize
                    · dsimp only
                      rw [if_pos (by simpa using hn)]
                      rfl
                    · dsimp only
                      rw [if_neg (by simpa using hn)]
                      exact batchStep_fetchLog env dryRun _ resp

/-- Every iteration of the driver loop logs exactly one fetch: the current
page with the current batch size, before anything else happens. -/
theorem iterOnce_fetchLog (env : DriverEnv) (startPage : Nat) (dryRun : Bool)
    (st : DriverState) :
    (iterState (iterOnce env startPage dryRun st)).fetchLog =
      st.fetchLog ++ [(st.currentPage, st.batchSize)] := by
  unfold iterOnce
  dsimp only
  cases hf : env.fetch st.currentPage st.batchSize with
  | error e => rw [catchBlock_fetchLog]
  | ok resp =>
      dsimp only
      by_cases hrows : resp.rows.length = 0
      · rw [if_pos hrows]
        rfl
      · rw [if_neg hrows]
        by_cases hsp : st.currentPage = startPage
        · rw [if_pos hsp, firstGate_fetchLog]
        · rw [if_neg hsp, firstGate_fetchLog]

/-! ## C8 — batch-size change timing -/

/--
C8: (a) at the pre-process gate of the first fetched page, an operator
response `{continue: true, newBatchSize: n}` (with `n` truthy and different
from the current size) makes the driver loop again on the same page with
batch size `n` before processing any item of the stale page: the outcome map,
the disk file and both client-call counters are untouched, and the next fetch
re-fetches the same page with size `n`.  (b) After a completed batch the same
response only updates the size for the subsequent fetch: the driver advances
to the next page without re-fetching the just-completed one, and the next
fetch is of page `currentPage + 1` with size `n`.
-/
theorem c8_batch_size_timing (env : DriverEnv) (f : Nat → ControlResponse)
    (startPage : Nat) (dryRun : Bool) (hctrl : env.control = some f) :
    (∀ st : DriverState, ∀ resp : PageResponse, ∀ n : Nat,
      st.isFirstBatch = true →
      env.fetch st.currentPage st.batchSize = .ok resp →
      resp.rows.length ≠ 0 →
      f st.ctrlCalls = .obj true (some n) →
      n ≠ 0 → n ≠ st.batchSize →
      ∃ st₂, iterOnce env startPage dryRun st = .loop st₂ ∧
        st₂.currentPage = st.currentPage ∧
        st₂.batchSize = n ∧
        st₂.isFirstBatch = false ∧
        st₂.downloadCalls = st.downloadCalls ∧
        st₂.uploadCalls = st.uploadCalls ∧
        st₂.tracker.disk = st.tracker.disk ∧
        st₂.tracker.progress.map Progress.episodes =
          st.tracker.progress.map Progress.episodes ∧
        (iterState (iterOnce env startPage dryRun st₂)).fetchLog =
          st₂.fetchLog ++ [(st.currentPage, n)]) ∧
    (∀ st : DriverState, ∀ resp : PageResponse, ∀ bs : BatchState, ∀ n : Nat,
      processBatch env.api st.tracker resp.rows dryRun = .ok bs →
      f st.ctrlCalls = .obj true (some n) →
      n ≠ 0 → n ≠ st.batchSize →
      st.currentPage < resp.total_pages →
      ∃ st₂, batchStep env dryRun st resp = .loop st₂ ∧
        st₂.batchSize = n ∧
        st₂.currentPage = st.currentPage + 1 ∧
        st₂.fetchLog = st.fetchLog ∧
        (iterState (iterOnce env startPage dryRun st₂)).fetchLog =
          st₂.fetchLog ++ [(st.currentPage + 1, n)]) := by
  constructor
  · intro st resp n h1 h2 h3 h4 h5 h6
    by_cases hsp : st.currentPage = startPage
    · have hE : iterOnce env startPage dryRun st =
          .loop
            { st with
              fetchLog := st.fetchLog ++ [(st.currentPage, st.batchSize)]
              tracker := updateCurrentPageT (updateTotalT st.tracker resp.total) st.currentPage
              ctrlCalls := st.ctrlCalls + 1
              isFirstBatch := false
              batchSize := n } := by
        unfold iterOnce
        dsimp only
        rw [h2]
        dsimp only
        rw [if_neg h3, if_pos hsp]
        unfold firstGate
        rw [hctrl]
        dsimp only
        rw [if_pos h1]
        rw [h4]
        dsimp only
        rw [if_pos rfl]
        rw [if_pos (⟨h5, h6⟩ : n ≠ 0 ∧ n ≠ st.batchSize)]
      refine ⟨_, hE, rfl, rfl, rfl, rfl, rfl, ?_, ?_, ?_⟩
      · rw [updateCurrentPageT_disk, updateTotalT_disk]
      · rw [updateCurrentPageT_episodes, updateTotalT_episodes]
      · rw [iterOnce_fetchLog]
    · have hE : iterOnce env startPage dryRun st =
          .loop
            { st with
              fetchLog := st.fetchLog ++ [(st.currentPage, st.batchSize)]
              tracker := updateCurrentPageT st.tracker st.currentPage
              ctrlCalls := st.ctrlCalls + 1
              isFirstBatch := false
              batchSize := n } := by
        unfold iterOnce
        dsimp only
        rw [h2]
        dsimp only
        rw [if_neg h3, if_neg hsp]
        unfold firstGate
        rw [hctrl]
        dsimp only
        rw [if_pos h1]
        rw [h4]
        dsimp only
        rw [if_pos rfl]
        rw [if_pos (⟨h5, h6⟩ : n ≠ 0 ∧ n ≠ st.batchSize)]
      refine ⟨_, hE, rfl, rfl, rfl, rfl, rfl, ?_, ?_, ?_⟩
      · rw [updateCurrentPageT_disk]
      · rw [updateCurrentPageT_episodes]
      · rw [iterOnce_fetchLog]
  · intro st resp bs n hbatch h4 h5 h6 hpage
    have hE : batchStep env dryRun st resp =
        .loop
          { st with
            tracker := bs.tracker
            totalProcessed := st.totalProcessed + bs.results.total
            totalSuccess := st.totalSuccess + bs.results.success
            totalFailed := st.totalFailed + bs.results.failed
            totalSkipped := st.totalSkipped + bs.results.skipped
            downloadCalls := st.downloadCalls + bs.downloadCalls
            uploadCalls := st.uploadCalls + bs.uploadCalls
            ctrlCalls := st.ctrlCalls + 1
            batchSize := n
            currentPage := st.currentPage + 1 } := by
      unfold batchStep
      rw [hbatch]
      dsimp only
      rw [hctrl]
      dsimp only
      rw [h4]
      dsimp only
      rw [if_pos rfl]
      rw [if_pos (⟨h5, h6⟩ : n ≠ 0 ∧ n ≠ st.batchSize)]
      dsimp only
      rw [if_neg (not_le.mpr hpage)]
    refine ⟨_, hE, rfl, rfl, rfl, ?_⟩
    rw [iterOnce_fetchLog]

/-- Witness for C8 at concrete inputs: the operator asks for size 10 at the
pre-process gate (page 1 is re-fetched with size 10 before any processing),
and for size 10 after a completed batch of page 1 of 3 (the next fetch is
page 2 with the new size). -/
theorem c8_witness :
    (∃ st₂, iterOnce resizeEnv 1 false (initialDriverState freshTracker 50 1) = .loop st₂ ∧
      st₂.currentPage = 1 ∧
      st₂.batchSize = 10 ∧
      st₂.isFirstBatch = false ∧
      st₂.downloadCalls = 0 ∧
      st₂.uploadCalls = 0 ∧
      st₂.tracker.disk = freshTracker.disk ∧
      st₂.tracker.progress.map Progress.episodes =
        freshTracker.progress.map Progress.episodes ∧
      (iterState (iterOnce resizeEnv 1 false st₂)).fetchLog = st₂.fetchLog ++ [(1, 10)]) ∧
    (∃ st₂, batchStep resizeEnv false (initialDriverState freshTracker 50 1)
        ⟨[⟨"e" ++ toString 1, some "m"⟩], 3, 3⟩ = .loop st₂ ∧
      st₂.batchSize = 10 ∧
      st₂.currentPage = 1 + 1 ∧
      st₂.fetchLog = [] ∧
      (iterState (iterOnce resizeEnv 1 false st₂)).fetchLog = st₂.fetchLog ++ [(1 + 1, 10)]) := by
  have h := c8_batch_size_timing resizeEnv
    (fun k => if k = 0 then ControlResponse.obj true (some 10) else ControlResponse.obj true (some 5))
    1 false rfl
  refine ⟨h.1 (initialDriverState freshTracker 50 1) ⟨[⟨"e" ++ toString 1, some "m"⟩], 3, 3⟩ 10
      rfl rfl (by decide) rfl (by decide) (by decide), ?_⟩
  exact h.2 (initialDriverState freshTracker 50 1) ⟨[⟨"e" ++ toString 1, some "m"⟩], 3, 3⟩
    ⟨⟨some (recordEpisode (freshProgress 1 "pod" 50) ("e" ++ toString 1) (some "m") "success" none),
      some (recordEpisode (freshProgress 1 "pod" 50) ("e" ++ toString 1) (some "m") "success" none)⟩,
     ⟨1, 1, 0, 0, [("e" ++ toString 1, "success")]⟩, 1, 1⟩ 10
    rfl rfl (by decide) (by decide) (by decide)

end PodcastArt
